import Mathlib

/-!
Verification of the AutoCandidature repository (improve_csv.py and sender.py)
against its natural-language specification.

The Python sources are shallowly embedded: pure string manipulation is
translated to Lean functions on `String` / `List Char`; file-system state
(the send-log CSV) is explicit state of type `Option (List Entry)` where
`none` models a non-existent file; network and API effects are abstracted
as oracle functions passed in as parameters.  All definitions are
executable.
-/

namespace AutoCandidature

/-! ## Basic string helpers shared by both source files -/

/-- Python `str.strip()`: drop whitespace from both ends. -/
def stripStr (l : List Char) : List Char :=
  ((l.dropWhile Char.isWhitespace).reverse.dropWhile Char.isWhitespace).reverse

/-- Remove every space character (Python replace of a space by the empty string). -/
def removeSpaces (l : List Char) : List Char :=
  l.filter (fun c => c != ' ')

/-- Python `str.lower()` (ASCII fragment, which is all the data exercises). -/
def lowerChars (l : List Char) : List Char :=
  l.map Char.toLower

/-- Hexadecimal digit test for percent-decoding. -/
def isHexDigit (c : Char) : Bool :=
  c.isDigit || ('a' ≤ c && c ≤ 'f') || ('A' ≤ c && c ≤ 'F')

/-- Numeric value of a hexadecimal digit. -/
def hexVal (c : Char) : Nat :=
  if c.isDigit then c.toNat - '0'.toNat
  else if 'a' ≤ c && c ≤ 'f' then c.toNat - 'a'.toNat + 10
  else c.toNat - 'A'.toNat + 10

/-- Model of `urllib.parse.unquote` on ASCII input: each `%XX` pair of hex
digits is decoded to the corresponding character; a `%` not followed by two
hex digits is kept verbatim (multi-byte UTF-8 sequences are not exercised
by any input in this development). -/
def unquote : List Char → List Char
  | '%' :: a :: b :: rest =>
    if isHexDigit a && isHexDigit b then
      Char.ofNat (16 * hexVal a + hexVal b) :: unquote rest
    else
      '%' :: unquote (a :: b :: rest)
  | c :: rest => c :: unquote rest
  | [] => []

/-- Substring containment test (Python `needle in haystack`). -/
def occurs (needle : List Char) : List Char → Bool
  | [] => needle.isEmpty
  | c :: rest => needle.isPrefixOf (c :: rest) || occurs needle rest

/-- Python `str.lower()` on a `String`. -/
def pyLower (s : String) : String :=
  String.mk (lowerChars s.data)

/-- Python `str.split(sep)` for a one-character separator. -/
def splitOnChar (sep : Char) : List Char → List (List Char)
  | [] => [[]]
  | c :: rest =>
    if c = sep then [] :: splitOnChar sep rest
    else
      match splitOnChar sep rest with
      | [] => [[c]]
      | h :: t => (c :: h) :: t

/-! ## improve_csv.py: clean_json_string (lines 7-16) -/

/-- Python replace of each backslash-quote pair by a quote, scanning
left-to-right without overlap. -/
def replaceEscapedQuotes : List Char → List Char
  | '\\' :: '"' :: rest => '"' :: replaceEscapedQuotes rest
  | c :: rest => c :: replaceEscapedQuotes rest
  | [] => []

/-- `clean_json_string` from improve_csv.py lines 7-16: un-escape doubled
quotes, strip one layer of surrounding double quotes. -/
def clean_json_string (json_str : String) : String :=
  if json_str.data.isEmpty then json_str
  else
    let s := replaceEscapedQuotes json_str.data
    if s.headD ' ' = '"' && s.getLastD ' ' = '"' then
      String.mk (s.drop 1).dropLast
    else String.mk s

/-! ## improve_csv.py: is_valid_email (lines 18-74) -/

/-- Character class `[A-Za-z0-9._%+\-]` (regex local part). -/
def isLocalChar (c : Char) : Bool :=
  c.isAlphanum || c = '.' || c = '_' || c = '%' || c = '+' || c = '-'

/-- Character class `[A-Za-z0-9.\-]` (regex domain part). -/
def isDomChar (c : Char) : Bool :=
  c.isAlphanum || c = '.' || c = '-'

/-- Tail of the domain after the separating dot: `[A-Za-z]\x7b2,\x7d$`,
i.e. at least two characters, all alphabetic, running to the end. -/
def domTailOk (cs : List Char) : Bool :=
  decide (2 ≤ cs.length) && cs.all Char.isAlpha

/-- After the first domain character: either the separating dot followed by
an alphabetic-only tail, or one more domain character (backtracking built
into the disjunction, since `.` is itself a domain character). -/
def domRest : List Char → Bool
  | [] => false
  | c :: rest => (c = '.' && domTailOk rest) || (isDomChar c && domRest rest)

/-- `[A-Za-z0-9.\-]+\.[A-Za-z]\x7b2,\x7d$`: non-empty domain chunk, a dot,
then an alphabetic TLD of length at least two, anchored at the end. -/
def domainMatch : List Char → Bool
  | [] => false
  | c :: rest => isDomChar c && domRest rest

/-- Continuation of the local part: either the `@` followed by a matching
domain, or one more local character.  `@` is not a local character, so the
two branches are mutually exclusive. -/
def localRest : List Char → Bool
  | [] => false
  | c :: rest => (c = '@' && domainMatch rest) || (isLocalChar c && localRest rest)

/-- The full anchored pattern of improve_csv.py line 42:
`^[A-Za-z0-9._%+\-]+@[A-Za-z0-9.\-]+\.[A-Za-z]\x7b2,\x7d$`. -/
def emailPatternMatch : List Char → Bool
  | [] => false
  | c :: rest => isLocalChar c && localRest rest

/-- The fixed image-extension rejection list of improve_csv.py line 35. -/
def invalidExtensions : List (List Char) :=
  [".png".data, ".jpg".data, ".jpeg".data, ".gif".data, ".bmp".data,
   ".tiff".data, ".webp".data, ".svg".data, ".ico".data]

/-- The generic/placeholder substring rejection list of lines 63-67. -/
def genericEmails : List (List Char) :=
  ["example@".data, "exemple@".data, "sample@".data, "test@".data, "demo@".data,
   "@example.".data, "@exemple.".data, "@sample.".data, "@test.".data, "@demo.".data,
   "john.doe@".data, "jane.doe@".data, "user@".data, "info@example".data,
   "contact@example".data]

/-- `is_valid_email` from improve_csv.py lines 18-74, translated clause by
clause: length floor, URL decoding, space stripping, image-extension
rejection, anchored pattern match, `@`-split shape checks, TLD checks,
and generic-placeholder rejection. -/
def is_valid_email (email : String) : Bool :=
  if email.length < 5 then false
  else
    let e := if email.data.contains '%' then unquote email.data else email.data
    let e := removeSpaces (stripStr e)
    if invalidExtensions.any (fun ext => ext.isSuffixOf (lowerChars e)) then false
    else if !emailPatternMatch e then false
    else
      let parts := splitOnChar '@' e
      if parts.length != 2 || (parts.headD []).isEmpty || (parts.getLastD []).isEmpty then false
      else
        let domainParts := splitOnChar '.' (parts.getLastD [])
        let lastPart := domainParts.getLastD []
        if domainParts.length < 2 || lastPart.isEmpty || lastPart.length < 2 then false
        else if lastPart.all Char.isDigit then false
        else if genericEmails.any (fun g => occurs g (lowerChars e)) then false
        else true

/-! ## improve_csv.py: clean_email (lines 76-89) -/

/-- `clean_email` from improve_csv.py lines 76-89: URL-decode, strip,
remove internal spaces. -/
def clean_email (email : String) : String :=
  if email.data.isEmpty then email
  else
    let e := if email.data.contains '%' then unquote email.data else email.data
    String.mk (removeSpaces (stripStr e))

/-! ## improve_csv.py: the per-candidate emission step of improve_csv (lines 127-137) -/

/-- Whether the cleaned email contains the substring `sentry` after
lower-casing (improve_csv.py line 132, middle disjunct). -/
def sentryOccurs (email : String) : Bool :=
  occurs "sentry".data (lowerChars email.data)

/-- The rejection condition of improve_csv.py line 132: not valid, or
contains `sentry`, or its lowercased form is already in the processed set. -/
def rejete_email (email : String) (processed : List String) : Bool :=
  !is_valid_email email || sentryOccurs email || processed.contains (pyLower email)

/-- One iteration of the candidate loop of improve_csv.py lines 127-137.
The accumulator is `(processed_emails, emitted emails)`; a surviving email
is appended to the output and its lowercased form to the dedup set. -/
def improveStep (acc : List String × List String) (raw : String) : List String × List String :=
  let email := clean_email raw
  if rejete_email email acc.1 then acc
  else (acc.1 ++ [pyLower email], acc.2 ++ [email])

/-- The email-emission part of one full `improve_csv` run (lines 112-137):
rows are processed in order, each contributing the candidate strings that
`re.findall` produced for its `emails` column; `processed_emails` persists
across rows.  The candidate lists are universally quantified in the
theorems, covering every possible `re.findall` output. -/
def improveEmit (rows : List (List String)) : List String :=
  (rows.foldl (fun acc row => row.foldl improveStep acc) ([], [])).2

/-! ## improve_csv.py: JSON collaborator model and the complete_address block -/

/-- JSON whitespace skipping. -/
def jsonSkipWs (cs : List Char) : List Char :=
  cs.dropWhile (fun c => c = ' ' || c = '\t' || c = '\n' || c = '\r')

/-- Scan a JSON string literal body up to the closing quote.  Escape
sequences are not exercised by any input in this development and make the
parse fail. -/
def jsonStringBody : List Char → List Char → Option (String × List Char)
  | [], _ => none
  | '"' :: rest, acc => some (String.mk acc.reverse, rest)
  | '\\' :: _, _ => none
  | c :: rest, acc => jsonStringBody rest (c :: acc)

/-- Parse a JSON string literal. -/
def jsonString : List Char → Option (String × List Char)
  | '"' :: rest => jsonStringBody rest []
  | _ => none

/-- Parse the members of a flat JSON object of string keys and string
values, after the opening brace.  The fuel argument only bounds recursion;
it is always called with at least the input length. -/
def jsonMembers : Nat → List Char → List (String × String) →
    Option (List (String × String) × List Char)
  | 0, _, _ => none
  | fuel + 1, cs, acc =>
    match jsonString (jsonSkipWs cs) with
    | none => none
    | some (k, rest1) =>
      match jsonSkipWs rest1 with
      | ':' :: rest2 =>
        match jsonString (jsonSkipWs rest2) with
        | none => none
        | some (v, rest3) =>
          match jsonSkipWs rest3 with
          | ',' :: rest4 => jsonMembers fuel rest4 (acc ++ [(k, v)])
          | '}' :: rest4 => some (acc ++ [(k, v)], rest4)
          | _ => none
      | _ => none

/-- Model of the JSON-parser collaborator (`json.loads`, spec section 6),
restricted to the shapes these claims exercise: a flat object whose keys
and values are escape-free string literals.  Anything else is a parse
failure, exactly as `json.loads` fails on the non-JSON inputs used here. -/
def jsonLoadsObj (s : String) : Option (List (String × String)) :=
  match jsonSkipWs s.data with
  | '{' :: rest =>
    match jsonSkipWs rest with
    | '}' :: rest2 => if (jsonSkipWs rest2).isEmpty then some [] else none
    | _ =>
      match jsonMembers s.length rest [] with
      | some (obj, rest2) => if (jsonSkipWs rest2).isEmpty then some obj else none
      | none => none
  | _ => none

/-- The complete_address block of improve_csv.py lines 173-193: when the
raw cell is empty the four fields default to empty; otherwise the cell is
cleaned and JSON-parsed and the four fields read with empty-string
defaults; any parse failure yields the four empty fields (the
`except` branch of lines 187-193). -/
def parse_complete_address (raw : String) : String × String × String × String :=
  if raw.data.isEmpty then ("", "", "", "")
  else
    match jsonLoadsObj (clean_json_string raw) with
    | some d =>
      ((List.lookup "street" d).getD "", (List.lookup "city" d).getD "",
       (List.lookup "postal_code" d).getD "", (List.lookup "country" d).getD "")
    | none => ("", "", "", "")

/-! ## improve_csv.py lines 229-238 and sender.py lines 823-828: run outcomes -/

/-- The three ways a whole pipeline/orchestrator run can end. -/
inductive RunOutcome
  | ok
  | fileNotFound
  | otherError
deriving DecidableEq

/-- The value `improve_csv` returns to its caller (improve_csv.py lines
229, 231-233, 234-238): `True` on success, `False` on a missing input
file, `False` on any other error. -/
def improve_csv_result : RunOutcome → Bool
  | .ok => true
  | .fileNotFound => false
  | .otherError => false

/-- The process exit code produced by the `__main__` block of
improve_csv.py lines 249-250: `sys.exit(2)` when `improve_csv` returned
`False`, otherwise a normal exit 0. -/
def improve_csv_exit (o : RunOutcome) : Nat :=
  if improve_csv_result o then 0 else 2

/-- The value `process_csv_and_send_emails` returns to its caller
(sender.py lines 663-828): the function has no return statement with a
value on any path — success, missing input file (line 823-824) and generic
error (line 825-828) all return Python `None`. -/
def process_csv_result : RunOutcome → Unit := fun _ => ()

/-! ## sender.py: the send log (emails_envoyes.csv) -/

/-- One data row of the send-log CSV: email, company name, timestamp. -/
structure Entry where
  email : String
  nom : String
  date : String
deriving DecidableEq

/-- The send-log file state: `none` models a file that does not exist,
`some l` a file holding the header row plus the entries `l`. -/
abbrev LogState := Option (List Entry)

/-- The entries readable from the log file (none when the file is absent). -/
def entriesOf (log : LogState) : List Entry := log.getD []

/-- `verifier_email_deja_envoye` from sender.py lines 476-497.  When the
file does not exist it is created holding only the header row and the
lookup answers `False` (lines 481-486); otherwise the rows are scanned for
a case-insensitive match on the email or on the company name (lines
488-494).  The result pairs the answer with the file state after the call.
The `except` branch of lines 495-497 (I/O failure) is outside this
file-state model. -/
def verifier_email_deja_envoye (email nom_entreprise : String) (log : LogState) :
    Bool × LogState :=
  match log with
  | none => (false, some [])
  | some rows =>
    (rows.any (fun row =>
      pyLower row.email == pyLower email || pyLower row.nom == pyLower nom_entreprise),
     some rows)

/-- `enregistrer_email_envoye` from sender.py lines 499-517: open in append
mode (which creates a missing file), write the header first when the file
did not exist, then append one entry with the current timestamp (passed in
here as `date`). -/
def enregistrer_email_envoye (email nom_entreprise date : String) (log : LogState) :
    LogState :=
  some (entriesOf log ++ [⟨email, nom_entreprise, date⟩])

/-! ## sender.py: traiter_email (lines 702-749) -/

/-- An outreach task as built in process_csv_and_send_emails lines 768-781:
the target email and the company display name (the enrichment context does
not influence the log or the counters). -/
structure Task where
  email : String
  nom : String
deriving DecidableEq

/-- The orchestrator state that `traiter_email` reads and writes: the
send-log file plus the `emails_sent` and `emails_skipped` counters.  The
letter cache and the API-call pacing counter touch neither the log nor
these counters and are omitted. -/
structure RunState where
  log : LogState
  sent : Nat
  skipped : Nat
deriving DecidableEq

/-- `traiter_email` from sender.py lines 702-749, with the mailer
collaborator abstracted as the boolean `sendOk` (the return value of
`envoyer_email_avec_cv`, which records the pair in the log just before
returning `True` and returns `False` without recording on any failure,
lines 642-655).  Control flow: an already-sent pair is skipped with
`emails_skipped += 1` and nothing else (lines 708-711); in dry-run mode
the pair is recorded and `emails_sent += 1` without calling the mailer
(lines 737-741); in live mode a successful send records the pair and
increments `emails_sent` (lines 746-749) while a failed send changes
neither the log nor any counter. -/
def traiter_email (dryRun sendOk : Bool) (date : String) (task : Task)
    (st : RunState) : RunState :=
  let check := verifier_email_deja_envoye task.email task.nom st.log
  if check.1 then
    { st with log := check.2, skipped := st.skipped + 1 }
  else if dryRun then
    { st with
      log := enregistrer_email_envoye task.email task.nom date check.2,
      sent := st.sent + 1 }
  else if sendOk then
    { st with
      log := enregistrer_email_envoye task.email task.nom date check.2,
      sent := st.sent + 1 }
  else
    { st with log := check.2 }

/-! ## sender.py: generer_lettre_motivation (lines 350-474) -/

/-- The company context dictionary handed to the generator
(`entreprise_info`); Python `dict.get` with a default is modelled by
`Option.getD`. -/
structure Entreprise where
  title : Option String
  category : Option String
  city : Option String
  website : Option String

/-- What one attempt of the Mistral API call can come back with:
a 200 with text, a 429, a non-200 status for which `raise_for_status`
raises (4xx/5xx, caught as a request exception), or a status for which it
does not raise, falling through to the next attempt. -/
inductive ApiResp
  | ok (text : String)
  | rateLimited
  | requestFailed
  | otherStatus

/-- The retry loop of sender.py lines 422-456 over `range(max_retries)`,
with the per-attempt response given by the oracle `resp` and the
post-cleaning `nettoyer_contenu_genere` abstracted as `nettoyer`.
A 200 returns the cleaned text; a 429 sleeps and retries; a raising status
or transport error retries unless this was the last attempt, in which case
it re-raises (line 453); a non-raising non-200 status falls through to the
next attempt; exhausting the loop raises (line 456).  `Except.error`
models an exception escaping the loop. -/
def apiLoop (nettoyer : String → String) (resp : Nat → ApiResp) (maxRetries : Nat) :
    List Nat → Except Unit String
  | [] => .error ()
  | attempt :: rest =>
    match resp attempt with
    | .ok t => .ok (nettoyer t)
    | .rateLimited => apiLoop nettoyer resp maxRetries rest
    | .otherStatus => apiLoop nettoyer resp maxRetries rest
    | .requestFailed =>
      if attempt < maxRetries - 1 then apiLoop nettoyer resp maxRetries rest
      else .error ()

/-- The fixed fallback letter of sender.py lines 462-474, an f-string
parameterized by the company name and the category only. -/
def lettre_secours (nom_entreprise categorie : String) : String :=
  "Madame, Monsieur,\n\nJe me permets de vous adresser ma candidature pour un stage en développement informatique au sein de "
  ++ nom_entreprise ++
  ".\n\nActuellement en formation de Concepteur Développeur d\x27Applications, je suis à la recherche d\x27une opportunité de stage de 4 mois (du 10 septembre 2024 au 9 janvier 2025) pour mettre en pratique mes compétences en programmation et contribuer à des projets concrets. Votre entreprise m\x27intéresse particulièrement pour son expertise dans le domaine "
  ++ categorie ++
  ".\n\nAu cours de ma formation et de mon précédent stage chez S2E Groupe, j\x27ai acquis des compétences solides en développement web (HTML, CSS, JavaScript, TypeScript, React) ainsi qu\x27en programmation Java et en cybersécurité. Cette expérience m\x27a permis de développer ma capacité à résoudre des problèmes complexes et à m\x27adapter rapidement à différents environnements techniques.\n\nJe suis convaincu que mon profil correspondrait aux attentes de votre entreprise et je serais ravi de pouvoir échanger avec vous lors d\x27un entretien pour vous présenter plus en détail mon parcours et mes motivations.\n\nVous trouverez en pièce jointe mon CV détaillant mon parcours et mes compétences.\n\n"

/-- `generer_lettre_motivation` from sender.py lines 350-474.  The whole
body sits in a `try` whose `except Exception` branch (lines 458-474)
returns the fixed fallback letter built from
`entreprise_info.get` with defaults `votre entreprise` for the title and
`technologique` for the category.  The site crawl and
prompt construction cannot raise (the crawler catches its own exceptions)
and do not affect this control flow; the API call is the loop above. -/
def generer_lettre_motivation (nettoyer : String → String) (info : Entreprise)
    (resp : Nat → ApiResp) (maxRetries : Nat) : String :=
  match apiLoop nettoyer resp maxRetries (List.range maxRetries) with
  | .ok t => t
  | .error _ =>
    lettre_secours (info.title.getD "votre entreprise") (info.category.getD "technologique")

/-! ## sender.py: crawler_site_entreprise (lines 138-293) -/

/-- The link-enqueueing step of sender.py lines 265-275: only while
`depth < max_depth - 1`, each same-host keyword-matching link (that
filtering is folded into the oracle `ls`) is added to the next-level set
if it has not been visited; the set semantics of `next_depth_urls` is
modelled by also skipping links already queued. -/
def enqueueLinks (depth maxDepth : Nat) (visited : List String)
    (next : List String) (ls : List String) : List String :=
  if depth < maxDepth - 1 then
    ls.foldl (fun nx l => if !(visited.contains l) && !(nx.contains l) then nx ++ [l] else nx) next
  else next

/-- One depth level of the crawl (the `for current_url in
current_depth_urls` body, sender.py lines 172-279): each URL not yet
visited is added to the visited set (line 176, before the fetch, so failed
fetches also count) and its outgoing links — supplied by the oracle
`links`, which yields `[]` for failed fetches and non-200 pages — are
enqueued for the next level.  Returns the updated visited set and the
next-level queue. -/
def processLevel (links : String → List String) (maxDepth depth : Nat) :
    List String → List String → List String → List String × List String
  | [], visited, next => (visited, next)
  | u :: us, visited, next =>
    if visited.contains u then processLevel links maxDepth depth us visited next
    else
      let visited2 := visited ++ [u]
      let next2 := enqueueLinks depth maxDepth visited2 next (links u)
      processLevel links maxDepth depth us visited2 next2

/-- The `while` loop of the crawl (sender.py line 171): run while the current
level is non-empty, `depth < max_depth` and `len(visited_urls) <
max_pages`.  The fuel argument only bounds the recursion: each iteration
increments `depth` and requires `depth < maxDepth`, so with
`fuel = maxDepth - depth` (as `crawler_site_entreprise` passes) the fuel
runs out exactly when the depth guard fails, and the function computes the
same visited set as the unbounded loop. -/
def crawlerLoop (links : String → List String) (maxDepth maxPages : Nat) :
    Nat → List String → List String → Nat → List String
  | 0, visited, _, _ => visited
  | fuel + 1, visited, current, depth =>
    if current ≠ [] ∧ depth < maxDepth ∧ visited.length < maxPages then
      let p := processLevel links maxDepth depth current visited []
      crawlerLoop links maxDepth maxPages fuel p.1 p.2 (depth + 1)
    else visited

/-- The page-visiting structure of `crawler_site_entreprise` (sender.py
lines 138-293): starting from the base URL at depth 0 with an empty
visited set.  Returns the set of URLs the crawl fetched; the snippet
extraction performed at each page does not influence which pages are
visited. -/
def crawler_site_entreprise (links : String → List String)
    (maxDepth maxPages : Nat) (baseUrl : String) : List String :=
  crawlerLoop links maxDepth maxPages maxDepth [] [baseUrl] 0

/-! ## Auxiliary definitions used by the theorems -/

/-- Invariant carried through the emission fold of `improveEmit`: the
emitted emails are pairwise distinct after lower-casing, and every emitted
email has its lowercased form in the processed set. -/
def emitInv (acc : List String × List String) : Prop :=
  (acc.2.map pyLower).Nodup ∧ ∀ x ∈ acc.2, pyLower x ∈ acc.1

/-- A concrete link oracle: the base page `b` links to three keyword
pages, which link nowhere. -/
def crawlLinksEx : String → List String :=
  fun u => if u = "b" then ["u1", "u2", "u3"] else []

/-! # Theorems -/

/-! ## C1: send-log membership semantics -/

/-- C1: for every state of the send log and every (email, company) pair,
`verifier_email_deja_envoye` answers true iff the log contains an entry
whose email or company name matches case-insensitively; and immediately
after `enregistrer_email_envoye e n d` it answers true for `(e, n)` and
for any other email `e2` paired with the same company name `n`. -/
theorem has_been_sent_iff_matching_entry (log : LogState) (e n : String) :
    ((verifier_email_deja_envoye e n log).1 = true ↔
      ∃ r ∈ entriesOf log, pyLower r.email = pyLower e ∨ pyLower r.nom = pyLower n)
    ∧ ∀ e2 d, (verifier_email_deja_envoye e2 n (enregistrer_email_envoye e n d log)).1 = true := by
  constructor
  · cases log with
    | none => simp [verifier_email_deja_envoye, entriesOf]
    | some rows =>
      simp [verifier_email_deja_envoye, entriesOf, List.any_eq_true]
  · intro e2 d
    cases log with
    | none => simp [verifier_email_deja_envoye, enregistrer_email_envoye, entriesOf]
    | some rows => simp [verifier_email_deja_envoye, enregistrer_email_envoye, entriesOf]

/-! ## C10: a lookup creates the missing log file -/

/-- C10: after any `verifier_email_deja_envoye` lookup the log file
exists; in particular a lookup on a missing file creates it holding only
the header row (no entries) and answers false. -/
theorem lookup_creates_log (e n : String) (log : LogState) :
    ((verifier_email_deja_envoye e n log).2).isSome = true
    ∧ verifier_email_deja_envoye e n none = (false, some []) := by
  refine ⟨?_, rfl⟩
  cases log <;> simp [verifier_email_deja_envoye]

/-! ## C9: tolerant address parsing -/

/-- C9: the complete_address block yields exactly the four embedded field
values on the well-formed JSON input, and four empty strings (with no
exception escaping, i.e. a total result) on the non-JSON input. -/
theorem parse_address_round_trip :
    parse_complete_address "\x7b\"street\":\"1 Rue A\",\"city\":\"Paris\",\"postal_code\":\"75001\",\"country\":\"FR\"\x7d"
      = ("1 Rue A", "Paris", "75001", "FR")
    ∧ parse_complete_address "not json" = ("", "", "", "") := by
  constructor <;> decide

/-! ## C6: the sentry rule is not inside is_valid_email -/

/-- C6 counterexample: `is_valid_email` itself accepts an email whose
lowercased form contains `sentry`, contradicting the claim that the
validity check returns false on such inputs. -/
theorem is_valid_email_accepts_sentry :
    is_valid_email "x@sentry.io" = true ∧ sentryOccurs "x@sentry.io" = true := by
  constructor <;> decide

/-- C6 amended: the `sentry` rejection lives in the acceptance test of the
pipeline (improve_csv.py line 132), not inside `is_valid_email`: any candidate
whose lowercased cleaned form contains `sentry` is rejected there. -/
theorem sentry_rejected_by_pipeline (email : String) (processed : List String)
    (h : sentryOccurs email = true) : rejete_email email processed = true := by
  simp [rejete_email, h]

/-- Witness for the amended C6 theorem at a concrete input. -/
theorem sentry_rejected_by_pipeline_witness :
    rejete_email "x@sentry.io" [] = true :=
  sentry_rejected_by_pipeline "x@sentry.io" [] (by decide)

/-! ## C7: failure signalling on a missing input file -/

/-- C7 counterexample: the value `improve_csv` returns for a missing input
file is the same value it returns for a generic processing error, and the
orchestrator returns the same (empty) value for a missing input file as
for a successful run — so neither caller receives a signal distinguishable
from a generic error. -/
theorem missing_input_signal_indistinct :
    improve_csv_result .fileNotFound = improve_csv_result .otherError
    ∧ process_csv_result .fileNotFound = process_csv_result .ok :=
  ⟨rfl, rfl⟩

/-- C7 amended: a missing input file is reported and aborts the run;
`improve_csv` returns False (exit code 2 through its `__main__` wrapper,
a non-zero signal but identical to the generic-error signal), while
`process_csv_and_send_emails` only logs and returns None, giving its
caller no failure signal at all. -/
theorem missing_input_reported_outcomes :
    improve_csv_result .fileNotFound = false
    ∧ improve_csv_result .otherError = false
    ∧ improve_csv_result .ok = true
    ∧ improve_csv_exit .fileNotFound = 2
    ∧ improve_csv_exit .ok = 0
    ∧ process_csv_result .fileNotFound = process_csv_result .ok := by
  refine ⟨rfl, rfl, rfl, rfl, rfl, rfl⟩

/-! ## C2: two consecutive dry runs -/

/-- C2 counterexample: for a concrete task, the first dry run counts it as
sent, but the second consecutive dry run counts it as skipped (already
sent) and not as sent — refuting the claim that both runs count it as
sent. -/
theorem dry_run_second_run_not_sent :
    (let r1 := traiter_email true true "2024-01-01" ⟨"contact@acme.fr", "ACME"⟩ ⟨none, 0, 0⟩
     let r2 := traiter_email true true "2024-01-02" ⟨"contact@acme.fr", "ACME"⟩ ⟨r1.log, 0, 0⟩
     r1.sent = 1 ∧ r2.sent = 0 ∧ r2.skipped = 1) := by
  decide

/-- C2 amended: a dry run skips the mailer call but records the pair, so
starting from a missing log the first dry run counts the task as sent, the
second consecutive dry run counts it as an already-sent skip (not as
sent), and after both runs the log contains exactly one entry for the
(email, company) pair.  The dry-run branch never consults the mailer
outcome. -/
theorem dry_run_idempotence_amended (t : Task) (d1 d2 : String) (b1 b2 : Bool) :
    (let r1 := traiter_email true b1 d1 t ⟨none, 0, 0⟩
     let r2 := traiter_email true b2 d2 t ⟨r1.log, 0, 0⟩
     r1.sent = 1 ∧ r1.skipped = 0 ∧ r2.sent = 0 ∧ r2.skipped = 1
     ∧ (entriesOf r2.log).countP (fun r => r.email == t.email && r.nom == t.nom) = 1)
    ∧ ∀ st : RunState, traiter_email true b1 d1 t st = traiter_email true b2 d1 t st := by
  constructor
  · simp [traiter_email, verifier_email_deja_envoye, enregistrer_email_envoye,
      entriesOf, List.countP_cons, List.countP_nil]
  · intro st
    rfl

/-! ## C4: a failed live send -/

/-- C4 counterexample: in live mode with a failing mailer, a fresh task is
neither recorded nor counted — `emails_skipped` stays 0 (the claim says
the failure is counted as skipped/failed) and `emails_sent` stays 0, so
the task resolves to no counted outcome at all. -/
theorem send_failure_uncounted :
    (let r := traiter_email false false "2024-01-01" ⟨"contact@acme.fr", "ACME"⟩ ⟨some [], 0, 0⟩
     r.skipped = 0 ∧ r.sent = 0 ∧ entriesOf r.log = []) := by
  decide

/-- Entries are unchanged by a lookup: the lookup only materialises the
file, never its data rows. -/
lemma entriesOf_verifier (e n : String) (log : LogState) :
    entriesOf (verifier_email_deja_envoye e n log).2 = entriesOf log := by
  cases log <;> simp [verifier_email_deja_envoye, entriesOf]

/-- C4 amended: when the mailer call fails in live mode, the (email,
company) pair is not recorded in the send log and no counter changes —
the task is not counted as sent, but neither is it counted as
skipped/failed, so a failed task resolves to no counted outcome (each
task increments at most one counter by at most one). -/
theorem send_failure_not_recorded (t : Task) (d : String) (st : RunState)
    (h : (verifier_email_deja_envoye t.email t.nom st.log).1 = false) :
    (let r := traiter_email false false d t st
     entriesOf r.log = entriesOf st.log ∧ r.sent = st.sent ∧ r.skipped = st.skipped)
    ∧ ∀ dryRun sendOk : Bool,
      (traiter_email dryRun sendOk d t st).sent + (traiter_email dryRun sendOk d t st).skipped
        ≤ st.sent + st.skipped + 1 := by
  constructor
  · simp only [traiter_email, h]
    simp [entriesOf_verifier]
  · intro dryRun sendOk
    simp only [traiter_email]
    split_ifs <;> simp <;> omega

/-- Witness for the amended C4 theorem at a concrete input. -/
theorem send_failure_not_recorded_witness :
    ((let r := traiter_email false false "2024-01-01" ⟨"a@b.fr", "ACME"⟩ ⟨some [], 3, 4⟩
      entriesOf r.log = entriesOf (⟨some [], 3, 4⟩ : RunState).log
      ∧ r.sent = 3 ∧ r.skipped = 4)
     ∧ ∀ dryRun sendOk : Bool,
       (traiter_email dryRun sendOk "2024-01-01" ⟨"a@b.fr", "ACME"⟩ ⟨some [], 3, 4⟩).sent
         + (traiter_email dryRun sendOk "2024-01-01" ⟨"a@b.fr", "ACME"⟩ ⟨some [], 3, 4⟩).skipped
         ≤ 3 + 4 + 1) :=
  send_failure_not_recorded ⟨"a@b.fr", "ACME"⟩ "2024-01-01" ⟨some [], 3, 4⟩ (by decide)

/-! ## C3: letter generation never raises and falls back -/

/-- If every attempt in the list is rate-limited, the retry loop exhausts
and raises. -/
lemma apiLoop_error_of_all_rateLimited (nettoyer : String → String)
    (resp : Nat → ApiResp) (maxRetries : Nat) :
    ∀ l : List Nat, (∀ a ∈ l, resp a = .rateLimited) →
      apiLoop nettoyer resp maxRetries l = .error () := by
  intro l
  induction l with
  | nil => intro _; rfl
  | cons a rest ih =>
    intro h
    have ha : resp a = .rateLimited := h a (List.mem_cons_self a rest)
    have hrest := ih (fun b hb => h b (List.mem_cons_of_mem a hb))
    simp [apiLoop, ha, hrest]

/-- C3: the letter generation operation never lets an exception reach its
caller: whenever the inner API retry loop ends in an exception — in
particular when every attempt is rate-limited (HTTP 429), which exhausts
the retry cap — `generer_lettre_motivation` returns the fixed pre-written
fallback letter, which is parameterized only by the company name and the
category. -/
theorem generer_lettre_never_raises (nettoyer : String → String) (info : Entreprise)
    (resp : Nat → ApiResp) (maxRetries : Nat) :
    (∀ e, apiLoop nettoyer resp maxRetries (List.range maxRetries) = .error e →
      generer_lettre_motivation nettoyer info resp maxRetries =
        lettre_secours (info.title.getD "votre entreprise") (info.category.getD "technologique"))
    ∧ ((∀ a, resp a = .rateLimited) →
      generer_lettre_motivation nettoyer info resp maxRetries =
        lettre_secours (info.title.getD "votre entreprise") (info.category.getD "technologique")) := by
  constructor
  · intro e he
    simp [generer_lettre_motivation, he]
  · intro hall
    have h := apiLoop_error_of_all_rateLimited nettoyer resp maxRetries
      (List.range maxRetries) (fun a _ => hall a)
    simp [generer_lettre_motivation, h]

/-- Witness for the C3 theorem: with every attempt rate-limited, the
generator returns exactly the fallback letter for the concrete company. -/
theorem generer_lettre_never_raises_witness :
    generer_lettre_motivation id ⟨some "ACME", some "tech", none, none⟩
      (fun _ => ApiResp.rateLimited) 5 =
    lettre_secours ((some "ACME").getD "votre entreprise")
      ((some "tech").getD "technologique") :=
  (generer_lettre_never_raises id ⟨some "ACME", some "tech", none, none⟩
    (fun _ => ApiResp.rateLimited) 5).2 (fun _ => rfl)

/-! ## C5: case-insensitive dedup invariant of the pipeline -/

/-- One emission step preserves the dedup invariant. -/
lemma improveStep_inv (acc : List String × List String) (raw : String)
    (h : emitInv acc) : emitInv (improveStep acc raw) := by
  by_cases hr : rejete_email (clean_email raw) acc.1 = true
  · have hstep : improveStep acc raw = acc := by
      simp [improveStep, hr]
    rw [hstep]
    exact h
  · have hfalse : rejete_email (clean_email raw) acc.1 = false :=
      Bool.eq_false_iff.mpr hr
    have hstep : improveStep acc raw =
        (acc.1 ++ [pyLower (clean_email raw)], acc.2 ++ [clean_email raw]) := by
      simp [improveStep, hfalse]
    have hmem : pyLower (clean_email raw) ∉ acc.1 := by
      unfold rejete_email at hfalse
      simp at hfalse
      exact hfalse.2
    rw [hstep]
    constructor
    · show ((acc.2 ++ [clean_email raw]).map pyLower).Nodup
      rw [List.map_append, List.nodup_append]
      refine ⟨h.1, List.nodup_singleton _, ?_⟩
      intro a ha hb
      rcases List.mem_map.mp ha with ⟨x, hx, hxa⟩
      have hab : a = pyLower (clean_email raw) := by simpa using hb
      exact hmem (hab ▸ hxa ▸ h.2 x hx)
    · intro x hx
      rcases List.mem_append.mp hx with hx | hx
      · exact List.mem_append.mpr (Or.inl (h.2 x hx))
      · have hxeq : x = clean_email raw := by simpa using hx
        subst hxeq
        exact List.mem_append.mpr (Or.inr (by simp))

/-- Folding the candidate list of one row preserves the dedup invariant. -/
lemma foldl_improveStep_inv (l : List String) :
    ∀ acc, emitInv acc → emitInv (l.foldl improveStep acc) := by
  induction l with
  | nil => intro acc h; exact h
  | cons a rest ih =>
    intro acc h
    exact ih _ (improveStep_inv acc a h)

/-- Folding all rows preserves the dedup invariant. -/
lemma foldl_rows_inv (rows : List (List String)) :
    ∀ acc, emitInv acc →
      emitInv (rows.foldl (fun acc row => row.foldl improveStep acc) acc) := by
  induction rows with
  | nil => intro acc h; exact h
  | cons row rest ih =>
    intro acc h
    exact ih _ (foldl_improveStep_inv row acc h)

/-- C5: for every sequence of rows of raw candidate strings, the sequence
of validated emails the pipeline emits never contains two emails that are
equal case-insensitively: the run-wide processed set rejects any candidate
whose lowercased form was already accepted. -/
theorem improve_emit_no_ci_duplicates (rows : List (List String)) :
    ((improveEmit rows).map pyLower).Nodup := by
  have h := foldl_rows_inv rows ([], []) ⟨by simp, by simp⟩
  exact h.1

/-! ## C8: crawler page budget -/

/-- Processing one depth level never revisits a URL: the visited set stays
duplicate-free. -/
lemma processLevel_nodup (links : String → List String) (maxDepth depth : Nat) :
    ∀ (us visited next : List String), visited.Nodup →
      (processLevel links maxDepth depth us visited next).1.Nodup := by
  intro us
  induction us with
  | nil => intro visited next h; exact h
  | cons u rest ih =>
    intro visited next h
    by_cases hv : visited.contains u = true
    · have heq : processLevel links maxDepth depth (u :: rest) visited next =
          processLevel links maxDepth depth rest visited next := by
        simp only [processLevel]
        rw [if_pos hv]
      rw [heq]
      exact ih visited next h
    · have hv2 : visited.contains u = false := Bool.eq_false_iff.mpr hv
      have hnodup : (visited ++ [u]).Nodup := by
        rw [List.nodup_append]
        refine ⟨h, List.nodup_singleton _, ?_⟩
        intro a ha hb
        have hau : a = u := by simpa using hb
        subst hau
        have hnot : a ∉ visited := by simpa using hv2
        exact hnot ha
      have heq : processLevel links maxDepth depth (u :: rest) visited next =
          processLevel links maxDepth depth rest (visited ++ [u])
            (enqueueLinks depth maxDepth (visited ++ [u]) next (links u)) := by
        simp only [processLevel]
        rw [if_neg hv]
      rw [heq]
      exact ih _ _ hnodup

/-- The crawl loop never revisits a URL. -/
lemma crawlerLoop_nodup (links : String → List String) (maxDepth maxPages : Nat) :
    ∀ (fuel : Nat) (visited current : List String) (depth : Nat), visited.Nodup →
      (crawlerLoop links maxDepth maxPages fuel visited current depth).Nodup := by
  intro fuel
  induction fuel with
  | zero => intro visited current depth h; exact h
  | succ fuel ih =>
    intro visited current depth h
    unfold crawlerLoop
    by_cases hc : current ≠ [] ∧ depth < maxDepth ∧ visited.length < maxPages
    · rw [if_pos hc]
      exact ih _ _ _ (processLevel_nodup links maxDepth depth current visited [] h)
    · rw [if_neg hc]
      exact h

/-- C8 counterexample: with max depth 2 and a configured page budget of 2,
a base page linking to three keyword pages makes the crawl visit four
distinct pages — the number of pages visited exceeds the configured
maximum total page count. -/
theorem crawler_exceeds_max_pages :
    2 < (crawler_site_entreprise crawlLinksEx 2 2 "b").length := by
  decide

/-- C8 amended: the crawler never revisits a URL and it checks the page
budget only between depth levels: once the visited count has reached
`maxPages` no further level is started (the loop returns the visited set
unchanged), but all URLs of the level being processed are visited, so the
final count can exceed `maxPages`.  The loop also stops when the pending
level is empty or the depth bound is reached. -/
theorem crawler_budget_amended (links : String → List String) (maxDepth maxPages : Nat)
    (baseUrl : String) :
    (crawler_site_entreprise links maxDepth maxPages baseUrl).Nodup
    ∧ ∀ (fuel : Nat) (visited current : List String) (depth : Nat),
        maxPages ≤ visited.length →
        crawlerLoop links maxDepth maxPages fuel visited current depth = visited := by
  constructor
  · exact crawlerLoop_nodup links maxDepth maxPages maxDepth [] [baseUrl] 0 List.nodup_nil
  · intro fuel visited current depth hge
    cases fuel with
    | zero => rfl
    | succ fuel =>
      unfold crawlerLoop
      rw [if_neg]
      rintro ⟨-, -, hlt⟩
      omega

/-- Witness for the amended C8 theorem: a concrete crawl yields a
duplicate-free visited set, and the loop started with an exhausted budget
returns its visited set unchanged. -/
theorem crawler_budget_amended_witness :
    (crawler_site_entreprise crawlLinksEx 2 2 "b").Nodup
    ∧ crawlerLoop crawlLinksEx 2 2 1 ["p", "q"] ["r"] 0 = ["p", "q"] :=
  ⟨(crawler_budget_amended crawlLinksEx 2 2 "b").1,
   (crawler_budget_amended crawlLinksEx 2 2 "b").2 1 ["p", "q"] ["r"] 0 (by decide)⟩

end AutoCandidature
